import Mathlib

/- Shallow embedding of the Telegram storefront bot in src/main.py:
   catalog and text-page loading, the display-name prefixing transform,
   the callback-token router with its per-conversation album state, and
   the render functions.  Strings handled character-by-character are
   modelled as `List Char`; the file system and the messaging transport
   are modelled as explicit inputs, and outbound calls as an `Event`
   trace. -/

namespace TelegramBotSale

/-- The characters Python `str.strip()` removes (CPython
`Py_UNICODE_ISSPACE`): ASCII whitespace U+0009–U+000D and U+0020, the
separators U+001C–U+001F, NEL U+0085, NBSP U+00A0, and the Unicode space
separators U+1680, U+2000–U+200A, U+2028, U+2029, U+202F, U+205F,
U+3000. -/
def py_space_chars : List Char :=
  ['\x09', '\x0a', '\x0b', '\x0c', '\x0d', '\x1c', '\x1d', '\x1e', '\x1f',
   ' ', '\x85', '\xa0', '\u1680', '\u2000', '\u2001', '\u2002', '\u2003',
   '\u2004', '\u2005', '\u2006', '\u2007', '\u2008', '\u2009', '\u200a',
   '\u2028', '\u2029', '\u202f', '\u205f', '\u3000']

/-- Python `str.isspace()` on one character. -/
def py_isspace (c : Char) : Bool := c ∈ py_space_chars

/-- Python `str.strip()`: drop leading and trailing whitespace. -/
def py_strip (s : List Char) : List Char :=
  ((s.dropWhile py_isspace).reverse.dropWhile py_isspace).reverse

/-- Text after the first `'|'` of the list; `name.split("|", 1)[-1]` when a
bar is present (the only context where `process_product_names` uses it). -/
def after_first_bar : List Char → List Char
  | [] => []
  | c :: rest => if c = '|' then rest else after_first_bar rest

/-- The literal `"✅ €"` that `process_product_names` tests with
`name.startswith(...)` and prepends via the f-string. -/
def price_mark : List Char := ['✅', ' ', '€']

/-- Body of `ProductManager.process_product_names` acting on one name:
`if name.startswith("✅ €") and "|" in name: name = name.split("|", 1)[-1].strip()`. -/
def stripped_base (name : List Char) : List Char :=
  if price_mark.isPrefixOf name ∧ '|' ∈ name then py_strip (after_first_bar name)
  else name

/-- One pass of `process_product_names` over a product:
`product["name"] = f"✅ €{price} | {name}"` after the strip step above. -/
def process_product_name (price name : List Char) : List Char :=
  price_mark ++ price ++ [' ', '|', ' '] ++ stripped_base name

/-- A product record as used by the handlers: fields `name`, `price`,
`category` are accessed with `product[...]`, `description` with a default,
and `photos` with a falsy check (missing list modelled as `[]`). -/
structure Product where
  name : String
  price : String
  category : String
  description : Option String
  photos : List String
deriving DecidableEq

/-- The five text pages loaded at startup into module globals. -/
structure Texts where
  about : String
  delivery : String
  payment : String
  services : String
  warranty : String
deriving DecidableEq

/-- Per-conversation session state: `context.user_data["last_album"]`,
defaulting to the empty list when absent. -/
abbrev SessionStore := Nat → List Nat

/-- An inline keyboard button: label plus either a callback token or a url. -/
structure Button where
  text : String
  callback : Option String
  url : Option String
deriving DecidableEq

abbrev Keyboard := List (List Button)

/-- Callback button (`InlineKeyboardButton(text, callback_data=...)`). -/
def btn (t cb : String) : Button := ⟨t, some cb, none⟩

/-- Url button (`InlineKeyboardButton(text, url=...)`). -/
def urlBtn (t u : String) : Button := ⟨t, none, some u⟩

/-- Outbound calls made by the handlers, plus the two session-store
operations, in the order the code awaits them. -/
inductive Event where
  | answer (msg : Option String)
  | takeAlbum (conv : Nat) (ids : List Nat)
  | deleteMessage (msgId : Nat)
  | sendAlbum (urls : List String) (returnedIds : List Nat)
  | storeAlbum (conv : Nat) (ids : List Nat)
  | sendText (body : String) (kb : Keyboard)
  | editMessage (body : String) (kb : Keyboard)
  | deleteTrigger
deriving DecidableEq

/-- `config.CONTACT_URL`: opaque configuration value (config.py is outside
the embedded sources); no claim depends on it. -/
def CONTACT_URL : String := "CONTACT_URL"

/-- `main_menu_keyboard()`. -/
def main_menu_keyboard : Keyboard :=
  [[btn "ℹ️ Обо мне" "about", btn "🛡️ Гарантия" "warranty"],
   [btn "🚚 Доставка" "delivery", btn "💰 Оплата" "payment"],
   [btn "🧰 Услуги" "services"],
   [btn "🛒 Товары в наличии" "available"],
   [urlBtn "📩 Связаться с продавцом" CONTACT_URL]]

/-- `[lst[i:i+2] for i in range(0, len(lst), 2)]`: rows of two. -/
def chunk2 : List α → List (List α)
  | [] => []
  | [a] => [[a]]
  | a :: b :: rest => [a, b] :: chunk2 rest

/-- `category_keyboard(categories)`. -/
def category_keyboard (cats : List (String × String)) : Keyboard :=
  chunk2 (cats.map fun kn => btn kn.2 ("cat_" ++ kn.1)) ++
    [[btn "🔙 Назад" "home", btn "🏠 На главную" "home"],
     [urlBtn "📩 Связаться с продавцом" CONTACT_URL]]

/-- `product_keyboard(product)`. -/
def product_keyboard (p : Product) : Keyboard :=
  [[btn ("💶 €" ++ p.price) "noop"],
   [btn "🔙 Назад" ("cat_" ++ p.category), btn "🏠 На главную" "home"],
   [urlBtn "📩 Связаться с продавцом" CONTACT_URL]]

/-- `default_nav_keyboard()`. -/
def default_nav_keyboard : Keyboard :=
  [[btn "🔙 Назад" "home", btn "🏠 На главную" "home"],
   [urlBtn "📩 Связаться с продавцом" CONTACT_URL]]

/-- `CategoryManager.load_categories`: the file system is an explicit input
(`fileExists` for `os.path.exists`, `parsed` for the outcome of
`json.load`, `none` meaning the try block raised). -/
def load_categories (fileExists : Bool) (parsed : Option (List (String × String))) :
    List (String × String) :=
  if fileExists = false then []
  else match parsed with
    | some d => d
    | none => []

/-- Python `dict` assignment `d[k] = v`: replace in place when the key is
present, append otherwise. -/
def dictInsert (k : String) (v : α) : List (String × α) → List (String × α)
  | [] => [(k, v)]
  | kv :: rest => if kv.1 = k then (k, v) :: rest else kv :: dictInsert k v rest

/-- Loop body of `ProductManager.load_all_lots` for one walked file: keep
`.json` files whose `json.load` succeeded, keyed by `filename[:-5]`;
a raising file is logged and skipped. -/
def load_step : List (String × α) → String × Option α → List (String × α) :=
  fun lots fe =>
    if fe.1.endsWith ".json" then
      match fe.2 with
      | some data => dictInsert (fe.1.dropRight 5) data lots
      | none => lots
    else lots

/-- `ProductManager.load_all_lots`: the walk over `productsRoot` is the
explicit input `files`, each entry a file name plus the outcome of
`json.load` (`none` when the try block raised). -/
def load_all_lots (folderExists : Bool) (files : List (String × Option α)) :
    List (String × α) :=
  if folderExists = false then []
  else files.foldl load_step []

/-- `TextManager.load_text`: `parsed = none` models a parse failure,
`some none` a record without a `"text"` field. -/
def load_text (fileExists : Bool) (parsed : Option (Option String)) : String :=
  if fileExists = false then ""
  else match parsed with
    | some field => field.getD ""
    | none => ""

/-- The delete loop inside `clear_last_album`: one `bot.delete_message` per
stored id; `fails` tells which calls raise, and the `except: pass` makes
both outcomes continue with the remaining ids. -/
def deleteLoop (fails : Nat → Bool) : List Nat → List Event
  | [] => []
  | msgId :: rest =>
    Event.deleteMessage msgId ::
      (if fails msgId then deleteLoop fails rest else deleteLoop fails rest)

/-- `clear_last_album(context, query)`: pop the stored album for this
conversation (defaulting to `[]`) and best-effort delete each id. -/
def clear_last_album (fails : Nat → Bool) (conv : Nat) (s : SessionStore) :
    SessionStore × List Event :=
  let album := s conv
  (fun c => if c = conv then [] else s c,
   Event.takeAlbum conv album :: deleteLoop fails album)

/-- `show_categories(query)`. -/
def show_categories (cats : List (String × String)) : List Event :=
  [Event.editMessage "📂 Выберите категорию:" (category_keyboard cats)]

/-- The product-button rows of `show_category_products`:
`[[InlineKeyboardButton(p["name"], callback_data=k)] for k, p in products.items() if p.get("category") == cat_key]`. -/
def product_buttons (prods : List (String × Product)) (catKey : String) : Keyboard :=
  (prods.filter fun kp => kp.2.category == catKey).map fun kp => [btn kp.2.name kp.1]

/-- The `buttons` value of `show_category_products`, with the `or`
placeholder used when no product matched. -/
def category_products_keyboard (prods : List (String × Product)) (catKey : String) :
    Keyboard :=
  (if (product_buttons prods catKey).isEmpty then
    [[btn "❌ Нет товаров в этой категории" "available"]]
  else product_buttons prods catKey) ++
    [[btn "🔙 Назад" "available", btn "🏠 На главную" "home"],
     [urlBtn "📩 Связаться с продавцом" CONTACT_URL]]

/-- The header text of `show_category_products`:
`f"📦 Категория: {categories.get(cat_key, 'неизвестно')}"`. -/
def category_header (cats : List (String × String)) (catKey : String) : String :=
  "📦 Категория: " ++ ((cats.lookup catKey).getD "неизвестно")

/-- `show_category_products(query, cat_key)`. -/
def show_category_products (cats : List (String × String))
    (prods : List (String × Product)) (catKey : String) : List Event :=
  [Event.editMessage (category_header cats catKey)
    (category_products_keyboard prods catKey)]

/-- `show_product(query, context, product)`: `albumIds` are the message ids
the transport returns for the media group (`[m.message_id for m in sent]`). -/
def show_product (albumIds : List Nat) (conv : Nat) (p : Product)
    (s : SessionStore) : SessionStore × List Event :=
  if p.photos = [] then
    (s, [Event.sendText (p.description.getD "Нет описания.") (product_keyboard p),
         Event.deleteTrigger])
  else
    (fun c => if c = conv then albumIds else s c,
     [Event.sendAlbum p.photos albumIds,
      Event.storeAlbum conv albumIds,
      Event.sendText (p.description.getD "Нет описания.") (product_keyboard p),
      Event.deleteTrigger])

/-- The static-page key list of the router's membership test. -/
def pages : List String := ["about", "delivery", "payment", "services", "warranty"]

/-- The `page_map` lookup of `show_text_page`; the router only calls it
with a key of `pages`, so the final branch is unreachable through routing. -/
def pageMap (t : Texts) (k : String) : String :=
  if k = "about" then t.about
  else if k = "delivery" then t.delivery
  else if k = "payment" then t.payment
  else if k = "services" then t.services
  else if k = "warranty" then t.warranty
  else ""

/-- `show_text_page(query, page_key)`. -/
def show_text_page (t : Texts) (k : String) : List Event :=
  [Event.editMessage (pageMap t k) default_nav_keyboard]

/-- `show_home(query)`. -/
def show_home : List Event :=
  [Event.editMessage "👋 Вы снова на главной странице. \n👉 Выберите действие:"
    main_menu_keyboard]

/-- `handle_buttons(update, context)`: acknowledge, short-circuit on
`"noop"`, otherwise clear the last album and dispatch on the token. -/
def handle_buttons (prods : List (String × Product)) (cats : List (String × String))
    (texts : Texts) (albumIds : List Nat) (fails : Nat → Bool) (conv : Nat)
    (data : String) (s : SessionStore) : SessionStore × List Event :=
  if data = "noop" then
    (s, [Event.answer none, Event.answer (some "Это просто цена, действие не требуется.")])
  else
    let cleared := clear_last_album fails conv s
    let s1 := cleared.1
    let pre := Event.answer none :: cleared.2
    if data = "available" then (s1, pre ++ show_categories cats)
    else if String.isPrefixOf "cat_" data then
      (s1, pre ++ show_category_products cats prods (data.drop 4))
    else match prods.lookup data with
      | some p =>
        let r := show_product albumIds conv p s1
        (r.1, pre ++ r.2)
      | none =>
        if data ∈ pages then (s1, pre ++ show_text_page texts data)
        else if data = "home" then (s1, pre ++ show_home)
        else (s1, pre)

/- Helper lemmas -/

/-- The `except: pass` in the delete loop changes nothing: one
`deleteMessage` call per stored id, whatever `fails` says. -/
lemma deleteLoop_eq_map (fails : Nat → Bool) (l : List Nat) :
    deleteLoop fails l = l.map Event.deleteMessage := by
  induction l with
  | nil => rfl
  | cons x xs ih => simp [deleteLoop, ih]

/-- `after_first_bar` skips over a bar-free segment. -/
lemma after_first_bar_append (l r : List Char) (h : '|' ∉ l) :
    after_first_bar (l ++ r) = after_first_bar r := by
  induction l with
  | nil => rfl
  | cons c cs ih =>
    have hc : c ≠ '|' := fun hc => h (hc ▸ List.mem_cons_self c cs)
    simp only [List.cons_append, after_first_bar, if_neg hc]
    exact ih fun hm => h (List.mem_cons_of_mem c hm)

/-- Splitting after the first bar of `l ++ " | " ++ B` when `l` is bar-free
yields `" " ++ B`. -/
lemma after_first_bar_chain (l B : List Char) (h : '|' ∉ l) :
    after_first_bar (l ++ [' ', '|', ' '] ++ B) = ' ' :: B := by
  rw [List.append_assoc, after_first_bar_append l ([' ', '|', ' '] ++ B) h]
  simp [after_first_bar]

/-- A leading space disappears under `py_strip`. -/
lemma py_strip_space_cons (l : List Char) : py_strip (' ' :: l) = py_strip l := by
  unfold py_strip
  rw [List.dropWhile_cons_of_pos (by decide)]

/- Claim theorems -/

/-- Claim C2, counterexample: with price `"10"` and raw name `"Widget "`
(trailing space), applying the display-name transform twice differs from
applying it once — the second pass strips the space the first pass kept. -/
theorem process_product_name_not_idem :
    process_product_name "10".toList (process_product_name "10".toList "Widget ".toList) ≠
      process_product_name "10".toList "Widget ".toList := by decide

/-- Claim C2, amended: the display-name prefixing transform is idempotent
provided the price string contains no `'|'` and the computed base name is
fixed by `strip` (as holds for any raw name without leading or trailing
whitespace, and for any raw name already carrying the prefix). -/
theorem process_product_name_idem (price name : List Char) (hp : '|' ∉ price)
    (hb : py_strip (stripped_base name) = stripped_base name) :
    process_product_name price (process_product_name price name) =
      process_product_name price name := by
  have hmark : ('|' : Char) ∉ price_mark := by decide
  have hfree : ('|' : Char) ∉ price_mark ++ price := by
    simp only [List.mem_append]
    rintro (h | h)
    · exact hmark h
    · exact hp h
  have hcond : price_mark.isPrefixOf (process_product_name price name) = true ∧
      '|' ∈ process_product_name price name := by
    constructor
    · rw [ List.isPrefixOf_iff_prefix]
      unfold process_product_name
      rw [List.append_assoc, List.append_assoc]
      exact List.prefix_append _ _
    · unfold process_product_name
      simp
  have hsb : stripped_base (process_product_name price name) = stripped_base name := by
    rw [stripped_base, if_pos hcond]
    show py_strip (after_first_bar
      ((price_mark ++ price) ++ [' ', '|', ' '] ++ stripped_base name)) = _
    rw [after_first_bar_chain _ _ hfree, py_strip_space_cons, hb]
  calc process_product_name price (process_product_name price name)
      = price_mark ++ price ++ [' ', '|', ' '] ++
          stripped_base (process_product_name price name) := rfl
    _ = process_product_name price name := by rw [hsb]; rfl

/-- Claim C2, witness for the amended theorem at price `"10"`,
name `"Widget"`. -/
theorem process_product_name_idem_witness :
    process_product_name "10".toList (process_product_name "10".toList "Widget".toList) =
      process_product_name "10".toList "Widget".toList :=
  process_product_name_idem "10".toList "Widget".toList (by decide) (by decide)

/-- Claim C1, counterexample: the token `"xyz"` matches no routing rule,
yet handling it mutates the session — the stored last-album list `[5]` for
conversation `0` is cleared, so it is not unchanged. -/
theorem handle_buttons_unrecognized_mutates :
    (handle_buttons [] [] ⟨"", "", "", "", ""⟩ [] (fun _ => false) 0 "xyz"
      (fun _ => [5])).1 0 ≠ [5] := by decide

/-- Claim C1, amended: for a token matching no routing rule, handling the
interaction performs no render call; the pre-routing album cleanup still
runs, so the only session mutation is clearing this conversation's stored
last-album list, with one best-effort delete issued per stored id. -/
theorem handle_buttons_unrecognized (prods : List (String × Product))
    (cats : List (String × String)) (texts : Texts) (albumIds : List Nat)
    (fails : Nat → Bool) (conv : Nat) (data : String) (s : SessionStore)
    (h1 : data ≠ "noop") (h2 : data ≠ "available")
    (h3 : String.isPrefixOf "cat_" data = false)
    (h4 : prods.lookup data = none) (h5 : data ∉ pages) (h6 : data ≠ "home") :
    handle_buttons prods cats texts albumIds fails conv data s =
      (fun c => if c = conv then [] else s c,
       Event.answer none :: Event.takeAlbum conv (s conv) ::
         (s conv).map Event.deleteMessage) := by
  simp [handle_buttons, clear_last_album, deleteLoop_eq_map, h1, h2, h3, h4, h5, h6]

/-- Claim C1, witness for the amended theorem at token `"xyz"`. -/
theorem handle_buttons_unrecognized_witness :
    handle_buttons [] [] ⟨"", "", "", "", ""⟩ [] (fun _ => false) 0 "xyz"
      (fun _ => [5]) =
      (fun c => if c = 0 then [] else [5],
       [Event.answer none, Event.takeAlbum 0 [5], Event.deleteMessage 5]) :=
  handle_buttons_unrecognized [] [] ⟨"", "", "", "", ""⟩ [] (fun _ => false) 0 "xyz"
    (fun _ => [5]) (by decide) (by decide) (by decide) (by decide) (by decide)
    (by decide)

/-- Claim C3: rendering a product that has photos sends the grouped album
first, then stores the transport-returned ids as this conversation's last
album, then sends the description with the product keyboard, then deletes
the triggering message — exactly these effects, in exactly this order. -/
theorem show_product_with_photos (albumIds : List Nat) (conv : Nat) (p : Product)
    (s : SessionStore) (h : p.photos ≠ []) :
    show_product albumIds conv p s =
      (fun c => if c = conv then albumIds else s c,
       [Event.sendAlbum p.photos albumIds,
        Event.storeAlbum conv albumIds,
        Event.sendText (p.description.getD "Нет описания.") (product_keyboard p),
        Event.deleteTrigger]) := by
  simp [show_product, h]

/-- Claim C3, witness: a product with photos `["u1", "u2"]` and transport
ids `[7, 8]`. -/
theorem show_product_with_photos_witness :
    show_product [7, 8] 0 ⟨"n", "10", "phones", none, ["u1", "u2"]⟩ (fun _ => []) =
      (fun c => if c = 0 then [7, 8] else [],
       [Event.sendAlbum ["u1", "u2"] [7, 8],
        Event.storeAlbum 0 [7, 8],
        Event.sendText "Нет описания."
          (product_keyboard ⟨"n", "10", "phones", none, ["u1", "u2"]⟩),
        Event.deleteTrigger]) :=
  show_product_with_photos [7, 8] 0 ⟨"n", "10", "phones", none, ["u1", "u2"]⟩
    (fun _ => []) (by decide)

/-- Claim C4: popping the last album clears it (a second pop before any new
store reads the empty list), issues one delete call per stored id whatever
subset of the deletes fails, and a delete failure never changes the
handler's result — cleanup and render proceed identically. -/
theorem clear_last_album_spec :
    (∀ (fails : Nat → Bool) (conv : Nat) (s : SessionStore),
      (clear_last_album fails conv s).1 conv = [] ∧
      (clear_last_album fails conv s).2 =
        Event.takeAlbum conv (s conv) :: (s conv).map Event.deleteMessage ∧
      (clear_last_album fails conv (clear_last_album fails conv s).1).2 =
        [Event.takeAlbum conv []]) ∧
    (∀ (prods : List (String × Product)) (cats : List (String × String))
      (texts : Texts) (albumIds : List Nat) (fails fails2 : Nat → Bool)
      (conv : Nat) (data : String) (s : SessionStore),
      handle_buttons prods cats texts albumIds fails conv data s =
        handle_buttons prods cats texts albumIds fails2 conv data s) := by
  constructor
  · intro fails conv s
    refine ⟨by simp [clear_last_album], ?_, ?_⟩
    · simp [clear_last_album, deleteLoop_eq_map]
    · simp [clear_last_album, deleteLoop_eq_map]
  · intro prods cats texts albumIds fails fails2 conv data s
    have hcl : clear_last_album fails conv s = clear_last_album fails2 conv s := by
      simp [clear_last_album, deleteLoop_eq_map]
    simp only [handle_buttons, hcl]

/-- Claim C5: rendering a product without photos sends the description as a
single text message with the product keyboard (and deletes the trigger);
no album is sent, no album ids are stored, and the session is unchanged. -/
theorem show_product_no_photos (albumIds : List Nat) (conv : Nat) (p : Product)
    (s : SessionStore) (h : p.photos = []) :
    show_product albumIds conv p s =
      (s, [Event.sendText (p.description.getD "Нет описания.") (product_keyboard p),
           Event.deleteTrigger]) := by
  simp [show_product, h]

/-- Claim C5, witness: a photo-less product. -/
theorem show_product_no_photos_witness :
    show_product [7] 0 ⟨"n", "10", "phones", some "desc", []⟩ (fun _ => [5]) =
      (fun _ => [5],
       [Event.sendText "desc" (product_keyboard ⟨"n", "10", "phones", some "desc", []⟩),
        Event.deleteTrigger]) :=
  show_product_no_photos [7] 0 ⟨"n", "10", "phones", some "desc", []⟩
    (fun _ => [5]) (by decide)

/-- Claim C6: a category with no matching product renders with exactly one
placeholder product button whose token is `"available"` (the category
list), followed by the standard navigation footer. -/
theorem show_category_products_empty (cats : List (String × String))
    (prods : List (String × Product)) (catKey : String)
    (h : ∀ kp ∈ prods, kp.2.category ≠ catKey) :
    show_category_products cats prods catKey =
      [Event.editMessage (category_header cats catKey)
        ([[btn "❌ Нет товаров в этой категории" "available"]] ++
         [[btn "🔙 Назад" "available", btn "🏠 На главную" "home"],
          [urlBtn "📩 Связаться с продавцом" CONTACT_URL]])] := by
  have hf : (prods.filter fun kp => kp.2.category == catKey) = [] := by
    rw [List.filter_eq_nil_iff]
    intro a ha
    simpa using h a ha
  simp [show_category_products, category_products_keyboard, product_buttons, hf]

/-- Claim C6, witness: a catalog whose only product is in another
category. -/
theorem show_category_products_empty_witness :
    show_category_products [("phones", "📱")]
      [("p1", ⟨"n", "10", "other", none, []⟩)] "phones" =
      [Event.editMessage (category_header [("phones", "📱")] "phones")
        ([[btn "❌ Нет товаров в этой категории" "available"]] ++
         [[btn "🔙 Назад" "available", btn "🏠 На главную" "home"],
          [urlBtn "📩 Связаться с продавцом" CONTACT_URL]])] :=
  show_category_products_empty [("phones", "📱")]
    [("p1", ⟨"n", "10", "other", none, []⟩)] "phones" (by decide)

/-- Claim C7: the token `"noop"` only acknowledges — the trace holds the
two answer calls and nothing else (no album pop, no delete, no render),
and the session store is returned untouched. -/
theorem handle_buttons_noop (prods : List (String × Product))
    (cats : List (String × String)) (texts : Texts) (albumIds : List Nat)
    (fails : Nat → Bool) (conv : Nat) (s : SessionStore) :
    handle_buttons prods cats texts albumIds fails conv "noop" s =
      (s, [Event.answer none,
           Event.answer (some "Это просто цена, действие не требуется.")]) := by
  simp [handle_buttons]

/-- Claim C8: a `"cat_"` token whose key is absent from the category map
still renders — one edit call whose header falls back to the literal
`"неизвестно"` ("unknown") in place of the category display name. -/
theorem show_category_products_unknown (cats : List (String × String))
    (prods : List (String × Product)) (catKey : String)
    (h : cats.lookup catKey = none) :
    show_category_products cats prods catKey =
      [Event.editMessage "📦 Категория: неизвестно"
        (category_products_keyboard prods catKey)] := by
  simp [show_category_products, category_header, h]

/-- Claim C8, witness: empty category map, key `"x"`. -/
theorem show_category_products_unknown_witness :
    show_category_products [] [] "x" =
      [Event.editMessage "📦 Категория: неизвестно"
        (category_products_keyboard [] "x")] :=
  show_category_products_unknown [] [] "x" (by decide)

/-- Claim C9: every load failure degrades to empty data — a missing or
unparseable categories source yields the empty map, a missing products
folder yields no products, a product file whose parse raises is skipped
without disturbing the files around it, and a missing page file, parse
failure, or absent text field yields the empty string. -/
theorem load_failures_degrade :
    (∀ parsed : Option (List (String × String)), load_categories false parsed = []) ∧
    (load_categories true none = []) ∧
    (∀ files : List (String × Option Product), load_all_lots false files = []) ∧
    (∀ (pre post : List (String × Option Product)) (fn : String),
      load_all_lots true (pre ++ (fn, none) :: post) = load_all_lots true (pre ++ post)) ∧
    (∀ parsed : Option (Option String), load_text false parsed = "") ∧
    (load_text true none = "") ∧
    (load_text true (some none) = "") := by
  refine ⟨fun parsed => rfl, rfl, fun files => rfl, ?_, fun parsed => rfl, rfl, rfl⟩
  intro pre post fn
  have hstep : ∀ acc : List (String × Product), load_step acc (fn, none) = acc := by
    intro acc
    unfold load_step
    split <;> rfl
  simp only [load_all_lots, List.foldl_append, List.foldl_cons, hstep]

/-- Claim C10: rendering a product always ends by deleting the triggering
message, with or without photos — the deletion is shared by both
branches. -/
theorem show_product_deletes_trigger (albumIds : List Nat) (conv : Nat)
    (p : Product) (s : SessionStore) :
    ((show_product albumIds conv p s).2).getLast? = some Event.deleteTrigger := by
  by_cases h : p.photos = [] <;> simp [show_product, h]

end TelegramBotSale
